import Mathlib

/-!
Verification of the text-extraction and schedule-synthesis core of the
Rivard1TimeManagement repository (src/backend/parser.py and
src/backend/scheduler.py).

The Python code is shallowly embedded: strings are modeled as Lean
strings (lists of characters), the regular expressions used by the
source are translated into explicit executable matchers over the ASCII
range (the source only ever feeds them ASCII-relevant classes:
re module classes d and w are modeled as ASCII digits and ASCII word
characters), and datetime values are modeled as a calendar-day index
(an integer, standing for the 'YYYY-MM-DD' rendering of that day,
which is a bijection) together with an intra-day clock measured in
microseconds, the exact precision of Python datetime objects.
Timedelta day extraction floors, as in Python.

Where a Python dict may lack a key, the corresponding structure field
is an Option, with the source code defaults applied at the use sites,
exactly as the .get calls in the source do.
-/

namespace TM

/-! ## Character primitives (ASCII model of the Python classes) -/

/-- ASCII decimal digit, modeling the regex class d as used by the source. -/
def pyIsDigit (c : Char) : Bool := '0' ≤ c && c ≤ '9'

/-- ASCII word character, modeling the regex class w as used by the source. -/
def pyIsWordChar (c : Char) : Bool :=
  ('a' ≤ c && c ≤ 'z') || ('A' ≤ c && c ≤ 'Z') || pyIsDigit c || c = '_'

/-- Python str whitespace (the characters stripped by str.strip and
matched by the regex class s), ASCII part. -/
def pyIsSpace (c : Char) : Bool :=
  c = ' ' || c = '\t' || c = '\n' || c = '\r' || c = '\x0b' || c = '\x0c'

/-- Numeric value of an ASCII digit character. -/
def dval (c : Char) : Nat := c.toNat - 48

/-- ASCII lowercasing of a character list, modeling str.lower on the
inputs the source handles. -/
def lowerL (s : List Char) : List Char := s.map Char.toLower

/-- Python str.strip: remove leading and trailing whitespace. -/
def pyStrip (s : List Char) : List Char :=
  ((s.dropWhile pyIsSpace).reverse.dropWhile pyIsSpace).reverse

/-- Substring test (needle occurs contiguously inside hay), the Python
in operator on strings. -/
def containsSub (n h : List Char) : Bool :=
  if n.isPrefixOf h then true
  else
    match h with
    | [] => false
    | _ :: t => containsSub n t

/-! ## determine_deadline_type (parser.py lines 233 to 248) -/

/-- Does the lowered sentence contain any of the given keywords
(models: any(word in sentence_lower for word in [...]))? -/
def containsAnyKw (sl : List Char) (kws : List (List Char)) : Bool :=
  kws.any (fun kw => containsSub kw sl)

/-- parser.py determine_deadline_type: case-insensitive keyword lookup
in a fixed priority order, defaulting to assignment. -/
def determine_deadline_type (sentence : String) : String :=
  let sl := lowerL sentence.data
  if containsAnyKw sl ["exam".data, "test".data, "final".data, "midterm".data] then "exam"
  else if containsAnyKw sl ["assignment".data, "homework".data, "hw".data] then "assignment"
  else if containsSub "project".data sl || containsSub "paper".data sl then "project"
  else if containsSub "quiz".data sl then "quiz"
  else if containsSub "presentation".data sl || containsSub "present".data sl then "presentation"
  else "assignment"

/-! ## extract_deadline_title (parser.py lines 250 to 274)

Each pattern in prefixes_to_remove has the shape
anchor dot-star-lazy keyword optional-colon whitespace-star,
compiled without MULTILINE and applied by re.sub.  Because of the
anchor there is at most one match: the lazy dot-star runs from the
start of the string up to the first occurrence of the keyword
(case-insensitively), cannot cross a newline, and the match then
swallows one optional colon and the following whitespace run.
-/

/-- Search for the first case-insensitive occurrence of kw reachable
from the start of s without crossing a newline; on success return the
remainder of s after the occurrence. -/
def findCIRest (kw : List Char) (s : List Char) : Option (List Char) :=
  if (lowerL kw).isPrefixOf (lowerL s) then some (s.drop kw.length)
  else
    match s with
    | [] => none
    | c :: t => if c = '\n' then none else findCIRest kw t

/-- After the keyword, the pattern consumes one optional colon and the
following whitespace run. -/
def dropColonSpaces (s : List Char) : List Char :=
  match s with
  | ':' :: t => t.dropWhile pyIsSpace
  | _ => s.dropWhile pyIsSpace

/-- One re.sub step for a single entry of prefixes_to_remove. -/
def stripThroughKw (kw : List Char) (s : List Char) : List Char :=
  match findCIRest kw s with
  | some rest => dropColonSpaces rest
  | none => s

/-- The seven keywords of prefixes_to_remove, in source order. -/
def titleKws : List (List Char) :=
  ["due".data, "deadline".data, "assignment".data, "exam".data,
   "test".data, "quiz".data, "project".data]

/-- Collapse whitespace runs to single spaces
(models re.sub of a whitespace-run pattern with a space). -/
def collapseWsAux : Bool → List Char → List Char
  | _, [] => []
  | prevSp, c :: t =>
    if pyIsSpace c then
      if prevSp then collapseWsAux true t else ' ' :: collapseWsAux true t
    else c :: collapseWsAux false t

def collapseWs (s : List Char) : List Char := collapseWsAux false s

/-- Final cleanup of extract_deadline_title: collapse whitespace,
strip, truncate to 97 chars plus ellipsis when longer than 100,
default to Untitled Deadline when empty. -/
def finishTitle (t : List Char) : String :=
  let t1 := pyStrip (collapseWs t)
  let t2 := if t1.length > 100 then t1.take 97 ++ "...".data else t1
  if t2.isEmpty then "Untitled Deadline" else ⟨t2⟩

/-- parser.py extract_deadline_title: strip the sentence, apply the
seven prefix-removal substitutions in order, then clean up. -/
def extract_deadline_title (sentence : String) : String :=
  let s0 := pyStrip sentence.data
  finishTitle (titleKws.foldl (fun acc kw => stripThroughKw kw acc) s0)

/-! ## validate_and_format_date (parser.py lines 276 to 310)

Python strptime compiles each format directive to a regex fragment:
the month directive matches 10-12, 01-09 or a nonzero single digit;
the day directive matches 30-31, 10-29, 01-09 or a nonzero single
digit; the year directive matches exactly four digits; month names
are matched case-insensitively; a whitespace character inside the
format matches a whitespace run of the input.  The full input must be
consumed.  In all ten formats used by the source every numeric
directive is followed by a non-digit separator (or the end of the
input), so greedy matching without backtracking coincides with the
regex backtracking semantics; the matchers below therefore parse
greedily.  An out-of-range calendar date (or a year of 0) makes the
datetime constructor raise, which the source catches by moving on to
the next format.
-/

structure Ymd where
  y : Nat
  m : Nat
  d : Nat
deriving DecidableEq, Repr

/-- One or two digit numeric directive: two digits are accepted when
they form 10..maxTwo or have a leading zero; otherwise one nonzero
digit. Returns the value and the unconsumed rest. -/
def parse2or1 (maxTwo : Nat) (s : List Char) : Option (Nat × List Char) :=
  match s with
  | c1 :: c2 :: rest =>
    if pyIsDigit c1 && pyIsDigit c2 then
      let v := dval c1 * 10 + dval c2
      if (10 ≤ v && v ≤ maxTwo) || (c1 = '0' && 1 ≤ v) then some (v, rest)
      else if 1 ≤ dval c1 then some (dval c1, c2 :: rest)
      else none
    else if pyIsDigit c1 && 1 ≤ dval c1 then some (dval c1, c2 :: rest)
    else none
  | [c1] => if pyIsDigit c1 && 1 ≤ dval c1 then some (dval c1, []) else none
  | [] => none

/-- Exactly four digits (the year directive). -/
def parseY4 (s : List Char) : Option (Nat × List Char) :=
  match s with
  | c1 :: c2 :: c3 :: c4 :: rest =>
    if pyIsDigit c1 && pyIsDigit c2 && pyIsDigit c3 && pyIsDigit c4 then
      some (dval c1 * 1000 + dval c2 * 100 + dval c3 * 10 + dval c4, rest)
    else none
  | _ => none

def monthFull : List (List Char × Nat) :=
  [("january".data, 1), ("february".data, 2), ("march".data, 3),
   ("april".data, 4), ("may".data, 5), ("june".data, 6),
   ("july".data, 7), ("august".data, 8), ("september".data, 9),
   ("october".data, 10), ("november".data, 11), ("december".data, 12)]

def monthAbbr : List (List Char × Nat) :=
  [("jan".data, 1), ("feb".data, 2), ("mar".data, 3), ("apr".data, 4),
   ("may".data, 5), ("jun".data, 6), ("jul".data, 7), ("aug".data, 8),
   ("sep".data, 9), ("oct".data, 10), ("nov".data, 11), ("dec".data, 12)]

/-- Month name directive: case-insensitive match of one of the names
(no name is a prefix of another within either list, so first match is
the unique match). -/
def parseMonthName (names : List (List Char × Nat)) (s : List Char) :
    Option (Nat × List Char) :=
  names.findSome? fun nmv =>
    if nmv.1.isPrefixOf (lowerL s) then some (nmv.2, s.drop nmv.1.length) else none

/-- A literal character of the format. -/
def parseLit (c : Char) (s : List Char) : Option (List Char) :=
  match s with
  | x :: t => if x = c then some t else none
  | [] => none

/-- A whitespace character of the format matches a whole whitespace
run of the input (one or more characters). -/
def parseWs1 (s : List Char) : Option (List Char) :=
  match s with
  | x :: t => if pyIsSpace x then some (t.dropWhile pyIsSpace) else none
  | [] => none

/-- Tokens of the ten strptime formats used by the source. -/
inductive FTok
  | tm | td | ty | tBfull | tbAbbr | sp
  | lit (c : Char)
deriving DecidableEq, Repr

structure StrpRes where
  year : Option Nat := none
  month : Option Nat := none
  day : Option Nat := none
deriving DecidableEq, Repr

def runTok (t : FTok) (st : StrpRes) (s : List Char) :
    Option (StrpRes × List Char) :=
  match t with
  | .tm => (parse2or1 12 s).map (fun vr => ({st with month := some vr.1}, vr.2))
  | .td => (parse2or1 31 s).map (fun vr => ({st with day := some vr.1}, vr.2))
  | .ty => (parseY4 s).map (fun vr => ({st with year := some vr.1}, vr.2))
  | .tBfull => (parseMonthName monthFull s).map (fun vr => ({st with month := some vr.1}, vr.2))
  | .tbAbbr => (parseMonthName monthAbbr s).map (fun vr => ({st with month := some vr.1}, vr.2))
  | .sp => (parseWs1 s).map (fun r => (st, r))
  | .lit c => (parseLit c s).map (fun r => (st, r))

def runToks : List FTok → StrpRes → List Char → Option (StrpRes × List Char)
  | [], st, s => some (st, s)
  | t :: ts, st, s => (runTok t st s).bind (fun str => runToks ts str.1 str.2)

/-- Gregorian leap year, as the datetime module computes it. -/
def isLeap (y : Nat) : Bool := y % 4 == 0 && (y % 100 != 0 || y % 400 == 0)

def daysInMonth (y m : Nat) : Nat :=
  if m = 2 then (if isLeap y then 29 else 28)
  else if m = 4 ∨ m = 6 ∨ m = 9 ∨ m = 11 then 30 else 31

/-- The checks performed by the datetime constructor (MINYEAR 1,
MAXYEAR 9999, month 1..12, day within the month). -/
def validYmd (x : Ymd) : Bool :=
  1 ≤ x.y && x.y ≤ 9999 && 1 ≤ x.m && x.m ≤ 12 && 1 ≤ x.d && x.d ≤ daysInMonth x.y x.m

/-- One strptime attempt: run the format tokens, require the input to
be fully consumed, substitute the strptime defaults (year 1900, month
1, day 1) for directives absent from the format, and validate through
the datetime constructor.  Any failure is a caught ValueError in the
source, modeled as none. -/
def strptimeYmd (fmt : List FTok) (s : List Char) : Option Ymd :=
  match runToks fmt {} s with
  | some (st, []) =>
    let x : Ymd := ⟨st.year.getD 1900, st.month.getD 1, st.day.getD 1⟩
    if validYmd x then some x else none
  | _ => none

def fmtMDY : List FTok := [.tm, .lit '/', .td, .lit '/', .ty]
def fmtMDYdash : List FTok := [.tm, .lit '-', .td, .lit '-', .ty]
def fmtYMDdash : List FTok := [.ty, .lit '-', .tm, .lit '-', .td]
def fmtBdY : List FTok := [.tBfull, .sp, .td, .lit ',', .sp, .ty]
def fmtdBY : List FTok := [.td, .sp, .tBfull, .sp, .ty]
def fmtbdY : List FTok := [.tbAbbr, .sp, .td, .lit ',', .sp, .ty]
def fmtdbY : List FTok := [.td, .sp, .tbAbbr, .sp, .ty]
def fmtMDyearless : List FTok := [.tm, .lit '/', .td]

/-- Appending a comma, a space and the year directive to a year-less
format, as the source builds the format string for partial dates. -/
def withYearToks (fmt : List FTok) : List FTok := fmt ++ [.lit ',', .sp, .ty]

/-- Decimal rendering of a natural number, digit characters, as the
Python str conversion inside an f-string produces. -/
def pyNatDigitsAux : Nat → Nat → List Char
  | 0, _ => []
  | fuel + 1, n =>
    if n < 10 then [Char.ofNat (48 + n)]
    else pyNatDigitsAux fuel (n / 10) ++ [Char.ofNat (48 + n % 10)]

def pyNatDigits (n : Nat) : List Char := pyNatDigitsAux (n + 1) n

/-- The chain of the seven full formats of the source list (those
containing the year directive), tried in order. -/
def tryFullFormats (s : List Char) : Option Ymd :=
  strptimeYmd fmtMDY s <|> strptimeYmd fmtMDYdash s <|> strptimeYmd fmtYMDdash s
    <|> strptimeYmd fmtBdY s <|> strptimeYmd fmtdBY s
    <|> strptimeYmd fmtbdY s <|> strptimeYmd fmtdbY s

/-- The three year-less formats: the source appends a comma, a space
and the current year to the input and the year directive to the
format.  The format built from the month-name year-less formats
coincides with the corresponding full format token list. -/
def tryYearlessFormats (s : List Char) (currentYear : Nat) : Option Ymd :=
  let sy := s ++ ", ".data ++ pyNatDigits currentYear
  strptimeYmd (withYearToks fmtMDyearless) sy
    <|> strptimeYmd (withYearToks [.tBfull, .sp, .td]) sy
    <|> strptimeYmd (withYearToks [.tbAbbr, .sp, .td]) sy

/-- parser.py validate_and_format_date, core: try the ten formats in
source order, returning the first parsed and validated date. -/
def validate_core (s : List Char) (currentYear : Nat) : Option Ymd :=
  tryFullFormats s <|> tryYearlessFormats s currentYear

/-- Zero-padded two-digit rendering (strftime month and day). -/
def pad2N (n : Nat) : List Char :=
  if n < 10 then '0' :: pyNatDigits n else pyNatDigits n

/-- Zero-padded four-digit year rendering.  The strftime year
directive is platform-dependent for years below 1000 (glibc omits the
padding); such years only arise from explicitly four-digit inputs
like 0012-01-05, and we model the documented zero-padded form. -/
def pad4N (n : Nat) : List Char :=
  if n < 10 then '0' :: '0' :: '0' :: pyNatDigits n
  else if n < 100 then '0' :: '0' :: pyNatDigits n
  else if n < 1000 then '0' :: pyNatDigits n
  else pyNatDigits n

/-- strftime with the year-month-day format. -/
def fmtYmdStr (x : Ymd) : String :=
  ⟨pad4N x.y ++ '-' :: pad2N x.m ++ '-' :: pad2N x.d⟩

/-- parser.py validate_and_format_date: canonical rendering of the
first successful parse, none when every format fails.  The source
wraps everything in try/except and returns None on failure; the
embedding is total, so the function never raises by construction. -/
def validate_and_format_date (s : String) (currentYear : Nat) : Option String :=
  (validate_core s.data currentYear).map fmtYmdStr

/-! ## extract_dates (parser.py lines 107 to 135)

re.findall scans left to right, emitting non-overlapping matches and
resuming after each match.  In the six date patterns of the source,
every lazy or bounded quantifier is followed by a character it cannot
match (digits are always followed by a non-digit separator, a word
run by a space), so greedy matching without backtracking is
equivalent; the only place where regex backtracking could fire, the
final one-or-two-digit group before a word boundary in the last
pattern, is resolved explicitly in matchDigits12End below (taking one
digit instead of two cannot satisfy the boundary either when a digit
follows, so a digit run of length three or more never matches).
-/

/-- Exactly n digits, returning the rest. -/
def takeNDigits : Nat → List Char → Option (List Char)
  | 0, s => some s
  | n + 1, c :: t => if pyIsDigit c then takeNDigits n t else none
  | _ + 1, [] => none

/-- One or two digits, greedy, returning the rest. -/
def take12Digits (s : List Char) : Option (List Char) :=
  match s with
  | c1 :: r1 =>
    if pyIsDigit c1 then
      match r1 with
      | c2 :: r2 => if pyIsDigit c2 then some r2 else some r1
      | [] => some []
    else none
  | [] => none

def takeChar (c : Char) (s : List Char) : Option (List Char) :=
  match s with
  | x :: t => if x = c then some t else none
  | [] => none

/-- A nonempty maximal word-character run. -/
def takeWordRun1 (s : List Char) : Option (List Char) :=
  match s with
  | c :: _ =>
    if pyIsWordChar c then some (s.dropWhile pyIsWordChar) else none
  | [] => none

/-- Word boundary at the start of a match beginning with a word
character: the preceding character (none at the start of the text)
must not be a word character. -/
def noWordBefore : Option Char → Bool
  | none => true
  | some c => ! pyIsWordChar c

/-- Word boundary after a match ending in a word character: the next
character must not be a word character (or the input ends). -/
def atNonWordOrEnd : List Char → Bool
  | [] => true
  | c :: _ => ! pyIsWordChar c

/-- One or two digits directly followed by a word boundary: a digit
run of length one or two whose following character is not a word
character. -/
def matchDigits12End (s : List Char) : Option (List Char) :=
  match s with
  | c1 :: r1 =>
    if pyIsDigit c1 then
      match r1 with
      | c2 :: r2 =>
        if pyIsDigit c2 then (if atNonWordOrEnd r2 then some r2 else none)
        else if atNonWordOrEnd r1 then some r1 else none
      | [] => some []
    else none
  | [] => none

/-- Pattern 1: one or two digits, slash, one or two digits, slash,
four digits. -/
def matchP1 (_ : Option Char) (s : List Char) : Option Nat :=
  (take12Digits s).bind fun r1 =>
  (takeChar '/' r1).bind fun r2 =>
  (take12Digits r2).bind fun r3 =>
  (takeChar '/' r3).bind fun r4 =>
  (takeNDigits 4 r4).map fun r5 => s.length - r5.length

/-- Pattern 2: as pattern 1 with dashes. -/
def matchP2 (_ : Option Char) (s : List Char) : Option Nat :=
  (take12Digits s).bind fun r1 =>
  (takeChar '-' r1).bind fun r2 =>
  (take12Digits r2).bind fun r3 =>
  (takeChar '-' r3).bind fun r4 =>
  (takeNDigits 4 r4).map fun r5 => s.length - r5.length

/-- Pattern 3: four digits, dash, one or two digits, dash, one or two
digits. -/
def matchP3 (_ : Option Char) (s : List Char) : Option Nat :=
  (takeNDigits 4 s).bind fun r1 =>
  (takeChar '-' r1).bind fun r2 =>
  (take12Digits r2).bind fun r3 =>
  (takeChar '-' r3).bind fun r4 =>
  (take12Digits r4).map fun r5 => s.length - r5.length

/-- Pattern 4: boundary, word run, space, one or two digits, comma,
space, four digits, boundary. -/
def matchP4 (prev : Option Char) (s : List Char) : Option Nat :=
  if noWordBefore prev then
    (takeWordRun1 s).bind fun r1 =>
    (takeChar ' ' r1).bind fun r2 =>
    (take12Digits r2).bind fun r3 =>
    (takeChar ',' r3).bind fun r4 =>
    (takeChar ' ' r4).bind fun r5 =>
    (takeNDigits 4 r5).bind fun r6 =>
    if atNonWordOrEnd r6 then some (s.length - r6.length) else none
  else none

/-- Pattern 5: boundary, one or two digits, space, word run, space,
four digits, boundary. -/
def matchP5 (prev : Option Char) (s : List Char) : Option Nat :=
  if noWordBefore prev then
    (take12Digits s).bind fun r1 =>
    (takeChar ' ' r1).bind fun r2 =>
    (takeWordRun1 r2).bind fun r3 =>
    (takeChar ' ' r3).bind fun r4 =>
    (takeNDigits 4 r4).bind fun r5 =>
    if atNonWordOrEnd r5 then some (s.length - r5.length) else none
  else none

/-- Pattern 6: boundary, word run, space, one or two digits,
boundary. -/
def matchP6 (prev : Option Char) (s : List Char) : Option Nat :=
  if noWordBefore prev then
    (takeWordRun1 s).bind fun r1 =>
    (takeChar ' ' r1).bind fun r2 =>
    (matchDigits12End r2).map fun r3 => s.length - r3.length
  else none

/-- The re.findall scan: at each position try the matcher; on a match
emit it and resume after it (every pattern above consumes at least
one character on success), otherwise advance by one character.  The
fuel argument dominates the number of steps. -/
def findallAux (matchAt : Option Char → List Char → Option Nat) :
    Nat → Option Char → List Char → List (List Char)
  | 0, _, _ => []
  | fuel + 1, prev, s =>
    match matchAt prev s with
    | some n =>
      if n = 0 then []
      else
        let mt := s.take n
        mt :: findallAux matchAt fuel mt.getLast? (s.drop n)
    | none =>
      match s with
      | [] => []
      | c :: t => findallAux matchAt fuel (some c) t

def pyFindall (matchAt : Option Char → List Char → Option Nat)
    (s : List Char) : List (List Char) :=
  findallAux matchAt (s.length + 1) none s

def datePatternMatchers : List (Option Char → List Char → Option Nat) :=
  [matchP1, matchP2, matchP3, matchP4, matchP5, matchP6]

/-- The raw match list of extract_dates: all six patterns scanned over
the text, concatenated in pattern order. -/
def rawDateMatches (text : List Char) : List (List Char) :=
  (datePatternMatchers.map (fun m => pyFindall m text)).flatten

/-- Models list(set(...)): keep one copy of each distinct raw string.
CPython iterates a set in an unspecified order; we keep first
occurrences, and the theorems below only use order-insensitive
consequences (membership and multiplicity after validation). -/
def dedupFirst : List (List Char) → List (List Char)
  | [] => []
  | x :: t => x :: (dedupFirst t).filter (fun y => y ≠ x)

/-- parser.py extract_dates: match, deduplicate, validate and format,
dropping candidates that fail validation. -/
def extract_dates (text : String) (currentYear : Nat) : List String :=
  ((dedupFirst (rawDateMatches text.data)).filterMap
    (fun d => validate_core d currentYear)).map fmtYmdStr

/-! ## scheduler.py

datetime values are modeled by a calendar-day index (an integer;
day 0 is chosen to be a Monday, matching the weekday convention of
the datetime module where Monday is 0) together with the microsecond
of the day.  The canonical string a strftime year-month-day call
produces for a day is in bijection with the day index, so the
schedule keys and the date field of a deadline are modeled by day
indices; a deadline carries the parsed day of its canonical date
string (strptime of that string yields midnight of that day).
Subtraction of datetimes gives a timedelta whose day count floors,
exactly as the fdiv here does. -/

def usecPerDay : Int := 86400000000

structure PyDateTime where
  day : Int
  usec : Int
deriving DecidableEq, Repr

def dtValue (dt : PyDateTime) : Int := dt.day * usecPerDay + dt.usec

/-- The timedelta days attribute of a datetime difference: floor
division of the total microseconds by one day. -/
def tdDays (a b : PyDateTime) : Int := (dtValue a - dtValue b).fdiv usecPerDay

/-- datetime weekday: Monday is 0 through Sunday 6. -/
def pyWeekday (dt : PyDateTime) : Int := dt.day.emod 7

/-- Python format spec 02d: zero-pad to width two.  Only the
single-digit naturals are shorter than two characters, so only they
get a leading zero; negative values keep their sign. -/
def pad2I (n : Int) : String :=
  if 0 ≤ n ∧ n < 10 then ⟨'0' :: pyNatDigits n.toNat⟩
  else if 0 ≤ n then ⟨pyNatDigits n.toNat⟩
  else ⟨'-' :: pyNatDigits (-n).toNat⟩

/-- The hour-colon-zero-zero time strings built by the scheduler. -/
def timeHH (n : Int) : String := pad2I n ++ ":00"

/-- An activity dict of the scheduler.  Keys that some producers omit
are Option fields; none models an absent key. -/
structure Activity where
  time : String
  activity : String
  type : String
  duration : Option Int := none
  description : Option String := none
  course : Option String := none
  priority : Option String := none
deriving DecidableEq, Repr

/-- A deadline dict as consumed by the scheduler.  The date field
holds the day index of the canonical date string; the other fields
model dict keys that may be absent. -/
structure Deadline where
  date : Int
  type : Option String := none
  title : Option String := none
  course_code : Option String := none
  description : Option String := none
  time : Option String := none
deriving DecidableEq, Repr

/-- The user_data dict of create_schedule; every preference may be
absent. -/
structure UserData where
  wakeup : Option Int := none
  sleep : Option Int := none
  study_style : Option String := none
  deadlines : Option (List Deadline) := none
  email : Option String := none
deriving DecidableEq, Repr

/-- scheduler.py generate_study_sessions (lines 110 to 202): sessions
by study style.  The available_hours computation of the source is
dead code, kept here as an unused binding. -/
def generate_study_sessions (wakeup sleep : Int) (study_style : String)
    (day_of_week : Int) : List Activity :=
  let _available_hours := sleep - wakeup - 4
  if study_style = "pomodoro" then
    let morning_start := wakeup + 2
    let afternoon_start : Int := 14
    let evening_start : Int := 19
    let base : List Activity :=
      [{ time := timeHH morning_start,
         activity := "📚 Morning Study Block (4 Pomodoros)",
         type := "study", duration := some 120,
         description := some "25min study + 5min break × 4" },
       { time := timeHH afternoon_start,
         activity := "📚 Afternoon Study Block (4 Pomodoros)",
         type := "study", duration := some 120,
         description := some "25min study + 5min break × 4" }]
    if day_of_week < 5 then
      base ++
        [{ time := timeHH evening_start,
           activity := "📚 Evening Study Block (2 Pomodoros)",
           type := "study", duration := some 60,
           description := some "25min study + 5min break × 2" }]
    else base
  else if study_style = "focused" then
    [{ time := timeHH (wakeup + 2),
       activity := "📚 Deep Focus Session 1",
       type := "study", duration := some 180,
       description := some "Extended focused study session" },
     { time := "14:00",
       activity := "📚 Deep Focus Session 2",
       type := "study", duration := some 150,
       description := some "Extended focused study session" }]
  else
    [{ time := timeHH (wakeup + 2),
       activity := "📚 Morning Study Session",
       type := "study", duration := some 90,
       description := some "Flexible study session" },
     { time := "13:00",
       activity := "📚 Afternoon Study Session",
       type := "study", duration := some 60,
       description := some "Flexible study session" },
     { time := "16:00",
       activity := "📚 Late Afternoon Study",
       type := "study", duration := some 90,
       description := some "Flexible study session" },
     { time := "19:30",
       activity := "📚 Evening Review",
       type := "study", duration := some 45,
       description := some "Review and light study" }]

/-- ASCII uppercasing, modeling str.upper on the inputs the source
handles (the String.toUpper of the library is not used because its
byte-position recursion does not reduce in the kernel). -/
def upperStr (s : String) : String := ⟨s.data.map Char.toUpper⟩

/-- The emoji table of get_deadlines_for_date with its default. -/
def typeEmoji (t : String) : String :=
  if t = "exam" then "📝"
  else if t = "assignment" then "📄"
  else if t = "project" then "🚀"
  else if t = "quiz" then "❓"
  else if t = "presentation" then "🎤"
  else "⚠️"

/-- scheduler.py get_deadlines_for_date (lines 204 to 231): one
deadline activity per deadline whose date equals the current day.
The dict built by the source has no duration key. -/
def get_deadlines_for_date (date : PyDateTime) (deadlines : List Deadline) :
    List Activity :=
  deadlines.filterMap fun d =>
    if d.date = date.day then
      let ty := d.type.getD ""
      some
        { time := d.time.getD "23:59",
          activity := typeEmoji ty ++ " " ++ upperStr ty ++ ": " ++ d.title.getD "",
          type := "deadline",
          course := some (d.course_code.getD ""),
          description := some (d.description.getD ""),
          priority := some "high" }
    else none

/-- The intensity table of generate_review_sessions, total on the
three values it is consulted at. -/
def intensityOf (n : Int) : String :=
  if n = 1 then "Intensive" else if n = 3 then "Focused" else "Initial"

/-- scheduler.py generate_review_sessions (lines 233 to 254): the
deadline date string is parsed back to midnight of its day, the
timedelta day count to the current datetime is taken, and a review
activity is emitted when it is 1, 3 or 7 and the deadline type is
exam or project. -/
def generate_review_sessions (date : PyDateTime) (deadlines : List Deadline) :
    List Activity :=
  deadlines.filterMap fun d =>
    let deadline_date : PyDateTime := ⟨d.date, 0⟩
    let days_until := tdDays deadline_date date
    if (days_until = 1 ∨ days_until = 3 ∨ days_until = 7)
        ∧ (d.type = some "exam" ∨ d.type = some "project") then
      some
        { time := "20:00",
          activity := "📖 " ++ intensityOf days_until ++ " Review: " ++ d.title.getD "",
          type := "review",
          course := some (d.course_code.getD ""),
          duration := some (if days_until = 1 then 60 else 45),
          priority := some (if days_until ≤ 3 then "high" else "medium") }
    else none

/-- scheduler.py generate_daily_plan (lines 35 to 108): fixed routine
and meals, the study sessions, deadline and review activities, the
weekday wellness slot and the pre-sleep free time, sorted by the time
string (stable sort, as list.sort is). -/
def generate_daily_plan (date : PyDateTime) (wakeup sleep : Int)
    (study_style : String) (deadlines : List Deadline)
    (_parsed_dates : List String) : List Activity :=
  let day_of_week := pyWeekday date
  let plan : List Activity :=
    [{ time := timeHH wakeup, activity := "🌅 Morning Routine & Wake Up",
       type := "routine", duration := some 60 },
     { time := timeHH (wakeup + 1), activity := "🍳 Breakfast",
       type := "meal", duration := some 30 }]
    ++ generate_study_sessions wakeup sleep study_style day_of_week
    ++ [{ time := "12:00", activity := "🥗 Lunch Break",
          type := "meal", duration := some 60 },
        { time := "18:00", activity := "🍽️ Dinner",
          type := "meal", duration := some 60 }]
    ++ get_deadlines_for_date date deadlines
    ++ generate_review_sessions date deadlines
    ++ (if day_of_week < 5 then
          [{ time := timeHH (wakeup + 8), activity := "💪 Exercise/Wellness Time",
             type := "wellness", duration := some 45 }]
        else [])
    ++ [{ time := timeHH (sleep - 2), activity := "🎉 Free Time & Relaxation",
          type := "free", duration := some 120 }]
  plan.mergeSort (fun a b => decide (a.time ≤ b.time))

/-- scheduler.py create_schedule (lines 4 to 33): defaults the
preferences, then builds one plan per day for 120 days from the
start datetime (the today call of the source), keyed by the
formatted calendar date, modeled by the day index.  The past-date
guard of the source is kept although it can never fire. -/
def create_schedule (parsed_dates : List String) (user : UserData)
    (start : PyDateTime) : List (Int × List Activity) :=
  let wakeup := user.wakeup.getD 8
  let sleep := user.sleep.getD 23
  let study_style := user.study_style.getD "pomodoro"
  let deadlines := user.deadlines.getD []
  let _email := user.email.getD ""
  (List.range 120).foldl
    (fun sched i =>
      let current : PyDateTime := ⟨start.day + i, start.usec⟩
      if dtValue current < dtValue start then sched
      else
        sched ++ [(current.day,
          generate_daily_plan current wakeup sleep study_style deadlines parsed_dates)])
    []

/-! ## Shared lemmas -/

theorem foldl_guard_snoc {β : Type} (g : Nat → β) (c : Nat → Prop)
    [DecidablePred c] (h : ∀ i, ¬ c i) (l : List Nat) :
    ∀ acc : List β,
      l.foldl (fun a i => if c i then a else a ++ [g i]) acc = acc ++ l.map g := by
  induction l with
  | nil => intro acc; simp
  | cons x t ih => intro acc; simp [h x, ih]

/-- The past-date guard of create_schedule never fires, so the
schedule is the map over the 120 day offsets. -/
theorem create_schedule_eq_map (pd : List String) (u : UserData)
    (start : PyDateTime) :
    create_schedule pd u start =
      (List.range 120).map (fun (i : Nat) =>
        (start.day + (i : Int),
         generate_daily_plan ⟨start.day + (i : Int), start.usec⟩
           (u.wakeup.getD 8) (u.sleep.getD 23) (u.study_style.getD "pomodoro")
           (u.deadlines.getD []) pd)) := by
  unfold create_schedule
  dsimp only
  have h := foldl_guard_snoc
    (fun (i : Nat) =>
      (start.day + (i : Int),
       generate_daily_plan ⟨start.day + (i : Int), start.usec⟩
         (u.wakeup.getD 8) (u.sleep.getD 23) (u.study_style.getD "pomodoro")
         (u.deadlines.getD []) pd))
    (fun (i : Nat) => dtValue ⟨start.day + (i : Int), start.usec⟩ < dtValue start)
    (fun i => by
      simp only [dtValue, usecPerDay, not_lt]
      have : (0 : Int) ≤ (i : Int) := Int.natCast_nonneg i
      nlinarith)
    (List.range 120) []
  simpa using h

theorem generate_daily_plan_perm (date : PyDateTime) (w s : Int)
    (style : String) (ds : List Deadline) (pd : List String) :
    (generate_daily_plan date w s style ds pd).Perm
      ([{ time := timeHH w, activity := "🌅 Morning Routine & Wake Up",
          type := "routine", duration := some 60 },
        { time := timeHH (w + 1), activity := "🍳 Breakfast",
          type := "meal", duration := some 30 }]
       ++ generate_study_sessions w s style (pyWeekday date)
       ++ [{ time := "12:00", activity := "🥗 Lunch Break",
             type := "meal", duration := some 60 },
           { time := "18:00", activity := "🍽️ Dinner",
             type := "meal", duration := some 60 }]
       ++ get_deadlines_for_date date ds
       ++ generate_review_sessions date ds
       ++ (if pyWeekday date < 5 then
             [{ time := timeHH (w + 8), activity := "💪 Exercise/Wellness Time",
                type := "wellness", duration := some 45 }]
           else [])
       ++ [{ time := timeHH (s - 2), activity := "🎉 Free Time & Relaxation",
             type := "free", duration := some 120 }]) :=
  List.mergeSort_perm _ _

theorem study_sessions_all (w s : Int) (style : String) (dow : Int) :
    ((generate_study_sessions w s style dow).all
      (fun a => a.type == "study" && a.duration.isSome)) = true := by
  unfold generate_study_sessions
  split
  · split <;> rfl
  · split <;> rfl

/-- Every study session is a study activity with a duration. -/
theorem study_sessions_shape (w s : Int) (style : String) (dow : Int) :
    ∀ a ∈ generate_study_sessions w s style dow,
      a.type = "study" ∧ a.duration.isSome := by
  intro a ha
  have h := List.all_eq_true.1 (study_sessions_all w s style dow) a ha
  simp only [Bool.and_eq_true, beq_iff_eq] at h
  exact h

theorem study_sessions_count (w s : Int) (style : String) (dow : Int) :
    (generate_study_sessions w s style dow).countP (fun a => a.type == "study") =
      (generate_study_sessions w s style dow).length := by
  unfold generate_study_sessions
  split
  · split <;> rfl
  · split <;> rfl

theorem study_sessions_length (w s : Int) (style : String) (dow : Int) :
    2 ≤ (generate_study_sessions w s style dow).length := by
  unfold generate_study_sessions
  split
  · split <;> simp
  · split <;> simp

/-- Every deadline activity has the deadline type and no duration
key. -/
theorem deadline_activities_shape (date : PyDateTime) (ds : List Deadline) :
    ∀ a ∈ get_deadlines_for_date date ds,
      a.type = "deadline" ∧ a.duration = none := by
  intro a ha
  unfold get_deadlines_for_date at ha
  obtain ⟨d, _, hd⟩ := List.mem_filterMap.1 ha
  dsimp only at hd
  split at hd
  · exact Option.some.inj hd ▸ ⟨rfl, rfl⟩
  · exact absurd hd (by simp)

/-- Every review activity is a review with a duration. -/
theorem review_activities_shape (date : PyDateTime) (ds : List Deadline) :
    ∀ a ∈ generate_review_sessions date ds,
      a.type = "review" ∧ a.duration.isSome := by
  intro a ha
  unfold generate_review_sessions at ha
  obtain ⟨d, _, hd⟩ := List.mem_filterMap.1 ha
  dsimp only at hd
  split at hd
  · exact Option.some.inj hd ▸ ⟨rfl, rfl⟩
  · exact absurd hd (by simp)

/-! ## Claim C10 -/

/-- Claim C10: the output of generate_study_sessions is independent
of the sleep preference; sleep only feeds the dead available_hours
computation, so any two sleep values give identical session lists for
every wakeup, study style and weekday. -/
theorem C10_study_sessions_independent_of_sleep :
    ∀ (wakeup s1 s2 : Int) (style : String) (dow : Int),
      generate_study_sessions wakeup s1 style dow =
        generate_study_sessions wakeup s2 style dow := by
  intro wakeup s1 s2 style dow
  rfl

/-! ## Claim C2 -/

/-- Claim C2, counterexample: the defaulted study style pomodoro is
handled by the first branch of generate_study_sessions, which emits
three sessions on a weekday (two plus the weekday evening block), not
the four-session flexible template of the else branch; so the claim
that pomodoro maps to the else branch is false. -/
theorem C2_counterexample :
    (generate_study_sessions 8 23 "pomodoro" 0).length = 3 ∧
    generate_study_sessions 8 23 "pomodoro" 0 ≠
      generate_study_sessions 8 23 "flexible" 0 ∧
    (generate_study_sessions 8 23 "flexible" 0).length = 4 := by
  refine ⟨rfl, ?_, rfl⟩
  decide

/-- Claim C2, amended: a missing study_style defaults to pomodoro,
which the generator handles in its first branch (three sessions on
weekdays, two on weekends); missing wakeup and sleep default to 8 and
23; any string other than pomodoro and focused falls into the else
branch (the four-session flexible template), so no preference value
is rejected. -/
theorem C2_amended :
    (∀ (pd : List String) (start : PyDateTime) (u : UserData),
        u.study_style = none →
        create_schedule pd u start =
          create_schedule pd {u with study_style := some "pomodoro"} start) ∧
    (∀ (pd : List String) (start : PyDateTime) (u : UserData),
        u.wakeup = none →
        create_schedule pd u start =
          create_schedule pd {u with wakeup := some 8} start) ∧
    (∀ (pd : List String) (start : PyDateTime) (u : UserData),
        u.sleep = none →
        create_schedule pd u start =
          create_schedule pd {u with sleep := some 23} start) ∧
    (∀ (w s dow : Int),
        generate_study_sessions w s "pomodoro" dow =
          (let base : List Activity :=
            [{ time := timeHH (w + 2),
               activity := "📚 Morning Study Block (4 Pomodoros)",
               type := "study", duration := some 120,
               description := some "25min study + 5min break × 4" },
             { time := "14:00",
               activity := "📚 Afternoon Study Block (4 Pomodoros)",
               type := "study", duration := some 120,
               description := some "25min study + 5min break × 4" }]
           if dow < 5 then
             base ++
               [{ time := "19:00",
                  activity := "📚 Evening Study Block (2 Pomodoros)",
                  type := "study", duration := some 60,
                  description := some "25min study + 5min break × 2" }]
           else base)) ∧
    (∀ (w s dow : Int) (style : String),
        style ≠ "pomodoro" → style ≠ "focused" →
        (generate_study_sessions w s style dow).length = 4) := by
  refine ⟨?_, ?_, ?_, ?_, ?_⟩
  · intro pd start u h
    obtain ⟨uw, us, ust, udl, uem⟩ := u
    simp only at h
    subst h
    rfl
  · intro pd start u h
    obtain ⟨uw, us, ust, udl, uem⟩ := u
    simp only at h
    subst h
    rfl
  · intro pd start u h
    obtain ⟨uw, us, ust, udl, uem⟩ := u
    simp only at h
    subst h
    rfl
  · intro w s dow
    rfl
  · intro w s dow style h1 h2
    unfold generate_study_sessions
    rw [if_neg h1, if_neg h2]
    rfl

/-- Claim C2, witness for the amended statement. -/
theorem C2_amended_witness :
    (({} : UserData).study_style = none) ∧
    create_schedule [] {} ⟨0, 0⟩ =
      create_schedule [] {study_style := some "pomodoro"} ⟨0, 0⟩ ∧
    ("flexible" ≠ "pomodoro") ∧ ("flexible" ≠ "focused") ∧
    (generate_study_sessions 8 23 "flexible" 0).length = 4 :=
  ⟨rfl, C2_amended.1 [] ⟨0, 0⟩ {} rfl, by decide, by decide,
   C2_amended.2.2.2.2 8 23 0 "flexible" (by decide) (by decide)⟩

/-! ## Claim C6 -/

/-- Claim C6: determine_deadline_type checks the keyword groups in
the fixed order exam group, assignment group, project group, quiz,
presentation group, returns the category of the first group matching
the lowercased sentence, defaults to assignment, and classifies the
sentence about a midterm exam and final project as exam. -/
theorem C6_classify_priority_order :
    (∀ s : String,
        containsAnyKw (lowerL s.data)
          ["exam".data, "test".data, "final".data, "midterm".data] = true →
        determine_deadline_type s = "exam") ∧
    (∀ s : String,
        containsAnyKw (lowerL s.data)
          ["exam".data, "test".data, "final".data, "midterm".data] = false →
        containsAnyKw (lowerL s.data)
          ["assignment".data, "homework".data, "hw".data] = true →
        determine_deadline_type s = "assignment") ∧
    (∀ s : String,
        containsAnyKw (lowerL s.data)
          ["exam".data, "test".data, "final".data, "midterm".data] = false →
        containsAnyKw (lowerL s.data)
          ["assignment".data, "homework".data, "hw".data] = false →
        (containsSub "project".data (lowerL s.data) ||
          containsSub "paper".data (lowerL s.data)) = true →
        determine_deadline_type s = "project") ∧
    (∀ s : String,
        containsAnyKw (lowerL s.data)
          ["exam".data, "test".data, "final".data, "midterm".data] = false →
        containsAnyKw (lowerL s.data)
          ["assignment".data, "homework".data, "hw".data] = false →
        (containsSub "project".data (lowerL s.data) ||
          containsSub "paper".data (lowerL s.data)) = false →
        containsSub "quiz".data (lowerL s.data) = true →
        determine_deadline_type s = "quiz") ∧
    (∀ s : String,
        containsAnyKw (lowerL s.data)
          ["exam".data, "test".data, "final".data, "midterm".data] = false →
        containsAnyKw (lowerL s.data)
          ["assignment".data, "homework".data, "hw".data] = false →
        (containsSub "project".data (lowerL s.data) ||
          containsSub "paper".data (lowerL s.data)) = false →
        containsSub "quiz".data (lowerL s.data) = false →
        (containsSub "presentation".data (lowerL s.data) ||
          containsSub "present".data (lowerL s.data)) = true →
        determine_deadline_type s = "presentation") ∧
    (∀ s : String,
        containsAnyKw (lowerL s.data)
          ["exam".data, "test".data, "final".data, "midterm".data] = false →
        containsAnyKw (lowerL s.data)
          ["assignment".data, "homework".data, "hw".data] = false →
        (containsSub "project".data (lowerL s.data) ||
          containsSub "paper".data (lowerL s.data)) = false →
        containsSub "quiz".data (lowerL s.data) = false →
        (containsSub "presentation".data (lowerL s.data) ||
          containsSub "present".data (lowerL s.data)) = false →
        determine_deadline_type s = "assignment") ∧
    determine_deadline_type "Midterm exam and final project due" = "exam" := by
  refine ⟨?_, ?_, ?_, ?_, ?_, ?_, by decide⟩
  · intro s h1
    simp [determine_deadline_type, h1]
  · intro s h1 h2
    simp [determine_deadline_type, h1, h2]
  · intro s h1 h2 h3
    simp [determine_deadline_type, h1, h2, h3]
  · intro s h1 h2 h3 h4
    simp [determine_deadline_type, h1, h2, h3, h4]
  · intro s h1 h2 h3 h4 h5
    simp [determine_deadline_type, h1, h2, h3, h4, h5]
  · intro s h1 h2 h3 h4 h5
    simp [determine_deadline_type, h1, h2, h3, h4, h5]

/-- Claim C6, witness: the first branch applied at a concrete
sentence. -/
theorem C6_classify_priority_order_witness :
    containsAnyKw (lowerL "Final paper due".data)
      ["exam".data, "test".data, "final".data, "midterm".data] = true ∧
    determine_deadline_type "Final paper due" = "exam" :=
  ⟨by decide, C6_classify_priority_order.1 "Final paper due" (by decide)⟩

/-! ## Claim C7 -/

theorem dedupFirst_nodup (l : List (List Char)) : (dedupFirst l).Nodup := by
  induction l with
  | nil => exact List.nodup_nil
  | cons x t ih =>
    rw [dedupFirst, List.nodup_cons]
    refine ⟨fun hmem => ?_, ih.filter _⟩
    rw [List.mem_filter] at hmem
    simpa using hmem.2

set_option maxHeartbeats 1000000 in
/-- Claim C7, counterexample: deduplication happens on the raw
matched strings before normalization, so a text containing the two
distinct raw spellings 3/15/2024 and 03/15/2024 of the same calendar
date produces that canonical date twice in the output, refuting the
claim that each successfully normalized date appears at most once. -/
theorem C7_counterexample :
    ¬ (List.count "2024-03-15" (extract_dates "3/15/2024 03/15/2024" 2024) ≤ 1) := by
  decide

set_option maxHeartbeats 1000000 in
/-- Claim C7, amended: the dedup set is taken over raw matched
strings, which therefore appear at most once each (and a text
containing the identical substring 03/15/2024 twice does yield its
canonical date once); but distinct raw strings normalizing to the
same canonical date each survive dedup, so the output can repeat a
canonical date. -/
theorem C7_amended :
    extract_dates "03/15/2024 03/15/2024" 2024 = ["2024-03-15"] ∧
    (∀ text : List Char, (dedupFirst (rawDateMatches text)).Nodup) ∧
    ("3/15/2024".data ∈ dedupFirst (rawDateMatches "3/15/2024 03/15/2024".data) ∧
     "03/15/2024".data ∈ dedupFirst (rawDateMatches "3/15/2024 03/15/2024".data) ∧
     validate_core "3/15/2024".data 2024 = validate_core "03/15/2024".data 2024) := by
  exact ⟨by decide, fun text => dedupFirst_nodup _, by decide, by decide, by decide⟩

/-! ## Claim C9 -/

theorem strptimeYmd_valid (fmt : List FTok) (s : List Char) (x : Ymd)
    (h : strptimeYmd fmt s = some x) : validYmd x = true := by
  unfold strptimeYmd at h
  split at h
  · dsimp only at h
    split at h
    · have := Option.some.inj h
      subst this
      assumption
    · exact absurd h (by simp)
  · exact absurd h (by simp)

theorem tryFullFormats_valid (s : List Char) (x : Ymd)
    (h : tryFullFormats s = some x) : validYmd x = true := by
  unfold tryFullFormats at h
  rcases (Option.orElse_eq_some _ _ _).1 h with h | ⟨-, h⟩
  · exact strptimeYmd_valid _ _ _ h
  rcases (Option.orElse_eq_some _ _ _).1 h with h | ⟨-, h⟩
  · exact strptimeYmd_valid _ _ _ h
  rcases (Option.orElse_eq_some _ _ _).1 h with h | ⟨-, h⟩
  · exact strptimeYmd_valid _ _ _ h
  rcases (Option.orElse_eq_some _ _ _).1 h with h | ⟨-, h⟩
  · exact strptimeYmd_valid _ _ _ h
  rcases (Option.orElse_eq_some _ _ _).1 h with h | ⟨-, h⟩
  · exact strptimeYmd_valid _ _ _ h
  rcases (Option.orElse_eq_some _ _ _).1 h with h | ⟨-, h⟩
  · exact strptimeYmd_valid _ _ _ h
  · exact strptimeYmd_valid _ _ _ h

theorem tryYearlessFormats_valid (s : List Char) (y : Nat) (x : Ymd)
    (h : tryYearlessFormats s y = some x) : validYmd x = true := by
  unfold tryYearlessFormats at h
  dsimp only at h
  rcases (Option.orElse_eq_some _ _ _).1 h with h | ⟨-, h⟩
  · exact strptimeYmd_valid _ _ _ h
  rcases (Option.orElse_eq_some _ _ _).1 h with h | ⟨-, h⟩
  · exact strptimeYmd_valid _ _ _ h
  · exact strptimeYmd_valid _ _ _ h

theorem validate_core_valid (s : List Char) (y : Nat) (x : Ymd)
    (h : validate_core s y = some x) : validYmd x = true := by
  unfold validate_core at h
  rcases (Option.orElse_eq_some _ _ _).1 h with h | ⟨-, h⟩
  · exact tryFullFormats_valid _ _ h
  · exact tryYearlessFormats_valid _ _ _ h

/-- Claim C9: the normalizer is a total function (the embedding never
raises by construction); it returns none when no format matches and
when the parsed numbers form an impossible calendar date, and any
returned value is the canonical rendering of a calendar date that
passes the datetime constructor checks. -/
theorem C9_normalize_none_or_valid :
    (∀ (s : String) (y : Nat),
        validate_and_format_date s y = none ∨
        ∃ x : Ymd, validate_core s.data y = some x ∧ validYmd x = true ∧
          validate_and_format_date s y = some (fmtYmdStr x)) ∧
    validate_and_format_date "06/31/2024" 2024 = none ∧
    validate_and_format_date "hello" 2024 = none ∧
    validate_and_format_date "02/30" 2024 = none := by
  refine ⟨?_, by decide, by decide, by decide⟩
  intro s y
  cases h : validate_core s.data y with
  | none =>
    left
    unfold validate_and_format_date
    rw [h]
    rfl
  | some x =>
    right
    refine ⟨x, rfl, validate_core_valid _ _ _ h, ?_⟩
    unfold validate_and_format_date
    rw [h]
    rfl

/-! ## Claim C8 -/

theorem parse2or1_suffix (m : Nat) (s : List Char) (v : Nat) (r : List Char)
    (h : parse2or1 m s = some (v, r)) : r <:+ s := by
  rcases s with _ | ⟨c1, _ | ⟨c2, rest⟩⟩
  · simp [parse2or1] at h
  · simp only [parse2or1] at h
    split at h
    · simp only [Option.some.injEq, Prod.mk.injEq] at h
      obtain ⟨-, rfl⟩ := h
      exact ⟨[c1], rfl⟩
    · simp at h
  · simp only [parse2or1] at h
    split at h
    · split at h
      · simp only [Option.some.injEq, Prod.mk.injEq] at h
        obtain ⟨-, rfl⟩ := h
        exact ⟨[c1, c2], rfl⟩
      · split at h
        · simp only [Option.some.injEq, Prod.mk.injEq] at h
          obtain ⟨-, rfl⟩ := h
          exact ⟨[c1], rfl⟩
        · simp at h
    · split at h
      · simp only [Option.some.injEq, Prod.mk.injEq] at h
        obtain ⟨-, rfl⟩ := h
        exact ⟨[c1], rfl⟩
      · simp at h

theorem parseY4_suffix (s : List Char) (v : Nat) (r : List Char)
    (h : parseY4 s = some (v, r)) : r <:+ s := by
  rcases s with _ | ⟨c1, _ | ⟨c2, _ | ⟨c3, _ | ⟨c4, rest⟩⟩⟩⟩ <;>
    simp only [parseY4] at h
  · exact absurd h (by simp)
  · exact absurd h (by simp)
  · exact absurd h (by simp)
  · exact absurd h (by simp)
  · split at h
    · simp only [Option.some.injEq, Prod.mk.injEq] at h
      obtain ⟨-, rfl⟩ := h
      exact ⟨[c1, c2, c3, c4], rfl⟩
    · simp at h

theorem parseY4_rest_nil_length (r : List Char) (v : Nat)
    (h : parseY4 r = some (v, [])) : r.length = 4 := by
  rcases r with _ | ⟨c1, _ | ⟨c2, _ | ⟨c3, _ | ⟨c4, rest⟩⟩⟩⟩ <;>
    simp only [parseY4] at h
  · exact absurd h (by simp)
  · exact absurd h (by simp)
  · exact absurd h (by simp)
  · exact absurd h (by simp)
  · split at h
    · simp only [Option.some.injEq, Prod.mk.injEq] at h
      obtain ⟨-, h2⟩ := h
      subst h2
      rfl
    · simp at h

theorem findSome?_exists {α β : Type} (f : α → Option β) (l : List α) (b : β)
    (h : l.findSome? f = some b) : ∃ a ∈ l, f a = some b := by
  induction l with
  | nil => simp [List.findSome?_nil] at h
  | cons a t ih =>
    rw [List.findSome?_cons] at h
    split at h
    · rename_i b' hb
      exact ⟨a, List.mem_cons_self a t, hb.trans h⟩
    · obtain ⟨a', ha', hfa⟩ := ih h
      exact ⟨a', List.mem_cons_of_mem a ha', hfa⟩

theorem parseMonthName_suffix (names : List (List Char × Nat)) (s : List Char)
    (v : Nat) (r : List Char) (h : parseMonthName names s = some (v, r)) :
    r <:+ s := by
  unfold parseMonthName at h
  obtain ⟨a, -, ha⟩ := findSome?_exists _ _ _ h
  split at ha
  · simp only [Option.some.injEq, Prod.mk.injEq] at ha
    obtain ⟨-, rfl⟩ := ha
    exact List.drop_suffix _ _
  · simp at ha

theorem parseLit_suffix (c : Char) (s : List Char) (r : List Char)
    (h : parseLit c s = some r) : r <:+ s := by
  rcases s with _ | ⟨x, t⟩
  · simp [parseLit] at h
  · simp only [parseLit] at h
    split at h
    · obtain rfl := Option.some.inj h
      exact ⟨[x], rfl⟩
    · simp at h

theorem parseWs1_suffix (s : List Char) (r : List Char)
    (h : parseWs1 s = some r) : r <:+ s := by
  rcases s with _ | ⟨x, t⟩
  · simp [parseWs1] at h
  · simp only [parseWs1] at h
    split at h
    · obtain rfl := Option.some.inj h
      exact (List.dropWhile_suffix _).trans ⟨[x], rfl⟩
    · simp at h

theorem runTok_suffix (t : FTok) (st : StrpRes) (s : List Char)
    (st2 : StrpRes) (r : List Char) (h : runTok t st s = some (st2, r)) :
    r <:+ s := by
  cases t <;> simp only [runTok, Option.map_eq_some'] at h
  · obtain ⟨⟨v, r1⟩, hp, heq⟩ := h
    simp only [Prod.mk.injEq] at heq
    obtain ⟨-, rfl⟩ := heq
    exact parse2or1_suffix 12 s v _ hp
  · obtain ⟨⟨v, r1⟩, hp, heq⟩ := h
    simp only [Prod.mk.injEq] at heq
    obtain ⟨-, rfl⟩ := heq
    exact parse2or1_suffix 31 s v _ hp
  · obtain ⟨⟨v, r1⟩, hp, heq⟩ := h
    simp only [Prod.mk.injEq] at heq
    obtain ⟨-, rfl⟩ := heq
    exact parseY4_suffix s v _ hp
  · obtain ⟨⟨v, r1⟩, hp, heq⟩ := h
    simp only [Prod.mk.injEq] at heq
    obtain ⟨-, rfl⟩ := heq
    exact parseMonthName_suffix monthFull s v _ hp
  · obtain ⟨⟨v, r1⟩, hp, heq⟩ := h
    simp only [Prod.mk.injEq] at heq
    obtain ⟨-, rfl⟩ := heq
    exact parseMonthName_suffix monthAbbr s v _ hp
  · obtain ⟨r1, hp, heq⟩ := h
    simp only [Prod.mk.injEq] at heq
    obtain ⟨-, rfl⟩ := heq
    exact parseWs1_suffix s _ hp
  · obtain ⟨r1, hp, heq⟩ := h
    simp only [Prod.mk.injEq] at heq
    obtain ⟨-, rfl⟩ := heq
    exact parseLit_suffix _ s _ hp

theorem runToks_suffix (toks : List FTok) : ∀ (st : StrpRes) (s : List Char)
    (st2 : StrpRes) (r : List Char), runToks toks st s = some (st2, r) →
    r <:+ s := by
  induction toks with
  | nil =>
    intro st s st2 r h
    simp only [runToks, Option.some.injEq, Prod.mk.injEq] at h
    obtain ⟨-, rfl⟩ := h
    exact List.suffix_refl _
  | cons t ts ih =>
    intro st s st2 r h
    simp only [runToks] at h
    obtain ⟨⟨st1, r1⟩, h1, h2⟩ := Option.bind_eq_some.1 h
    exact (ih st1 r1 st2 r h2).trans (runTok_suffix t st s st1 r1 h1)

theorem runToks_append (xs ys : List FTok) (st : StrpRes) (s : List Char) :
    runToks (xs ++ ys) st s =
      (runToks xs st s).bind (fun p => runToks ys p.1 p.2) := by
  induction xs generalizing st s with
  | nil => simp [runToks]
  | cons t ts ih =>
    simp only [List.cons_append, runToks]
    cases h : runTok t st s with
    | none => simp
    | some p => simp [ih]

theorem suffix_eq_of_length {α : Type} {r t u : List α} (hr : r <:+ u)
    (ht : t <:+ u) (hl : r.length = t.length) : r = t := by
  obtain ⟨p, hp⟩ := hr
  obtain ⟨q, hq⟩ := ht
  rw [← hp] at hq
  have hlen : q.length = p.length := by
    have := congrArg List.length hq
    simp only [List.length_append] at this
    omega
  exact ((List.append_inj hq hlen).2).symm

theorem pyIsDigit_digitChar (d : Nat) (h : d < 10) :
    pyIsDigit (Char.ofNat (48 + d)) = true := by
  interval_cases d <;> decide

theorem dval_digitChar (d : Nat) (h : d < 10) :
    dval (Char.ofNat (48 + d)) = d := by
  interval_cases d <;> decide

theorem pyNatDigitsAux_step (f n : Nat) (hf : 0 < f) (h : ¬ n < 10) :
    pyNatDigitsAux f n =
      pyNatDigitsAux (f - 1) (n / 10) ++ [Char.ofNat (48 + n % 10)] := by
  obtain ⟨g, rfl⟩ : ∃ g, f = g + 1 := ⟨f - 1, by omega⟩
  rw [pyNatDigitsAux]
  simp [h]

theorem pyNatDigitsAux_last (f n : Nat) (hf : 0 < f) (h : n < 10) :
    pyNatDigitsAux f n = [Char.ofNat (48 + n)] := by
  obtain ⟨g, rfl⟩ : ∃ g, f = g + 1 := ⟨f - 1, by omega⟩
  rw [pyNatDigitsAux]
  simp [h]

/-- A four-digit year renders as its four decimal digit characters. -/
theorem pyNatDigits_four (y : Nat) (h1 : 1000 ≤ y) (h2 : y ≤ 9999) :
    pyNatDigits y = [Char.ofNat (48 + y / 1000), Char.ofNat (48 + y / 100 % 10),
      Char.ofNat (48 + y / 10 % 10), Char.ofNat (48 + y % 10)] := by
  unfold pyNatDigits
  rw [pyNatDigitsAux_step (y + 1) y (by omega) (by omega)]
  rw [pyNatDigitsAux_step (y + 1 - 1) (y / 10) (by omega) (by omega)]
  rw [pyNatDigitsAux_step (y + 1 - 1 - 1) (y / 10 / 10) (by omega) (by omega)]
  rw [pyNatDigitsAux_last (y + 1 - 1 - 1 - 1) (y / 10 / 10 / 10) (by omega) (by omega)]
  have e1 : y / 10 / 10 / 10 = y / 1000 := by omega
  have e2 : y / 10 / 10 % 10 = y / 100 % 10 := by omega
  rw [e1, e2]
  simp

/-- The year directive consumes exactly the four rendered digits and
recovers the year. -/
theorem parseY4_pyNatDigits (y : Nat) (h1 : 1000 ≤ y) (h2 : y ≤ 9999) :
    parseY4 (pyNatDigits y) = some (y, []) := by
  rw [pyNatDigits_four y h1 h2]
  have d1 : y / 1000 < 10 := by omega
  have d2 : y / 100 % 10 < 10 := by omega
  have d3 : y / 10 % 10 < 10 := by omega
  have d4 : y % 10 < 10 := by omega
  simp [parseY4, pyIsDigit_digitChar _ d1, pyIsDigit_digitChar _ d2,
    pyIsDigit_digitChar _ d3, pyIsDigit_digitChar _ d4,
    dval_digitChar _ d1, dval_digitChar _ d2, dval_digitChar _ d3,
    dval_digitChar _ d4]
  omega

/-- A format ending in the year directive that consumes its whole
input stores, as the year, the value parsed by the year directive
from a suffix of the input. -/
theorem runToks_ty_year (pre : List FTok) (s : List Char) (st2 : StrpRes)
    (h : runToks (pre ++ [FTok.ty]) {} s = some (st2, [])) :
    ∃ r v, r <:+ s ∧ parseY4 r = some (v, []) ∧ st2.year = some v := by
  rw [runToks_append] at h
  obtain ⟨⟨st1, r1⟩, h1, h2⟩ := Option.bind_eq_some.1 h
  have hsuf := runToks_suffix pre {} s st1 r1 h1
  simp only [runToks] at h2
  obtain ⟨⟨st3, r3⟩, hty, hrest⟩ := Option.bind_eq_some.1 h2
  simp only [Option.some.injEq, Prod.mk.injEq] at hrest
  obtain ⟨rfl, rfl⟩ := hrest
  simp only [runTok, Option.map_eq_some'] at hty
  obtain ⟨⟨v, rv⟩, hp, heq⟩ := hty
  simp only [Prod.mk.injEq] at heq
  obtain ⟨hst, hrv⟩ := heq
  subst hrv
  exact ⟨r1, v, hsuf, hp, by rw [← hst]⟩

/-- Any successful year-less parse (format ending in the appended
year directive, input ending in the appended current year) returns a
date whose year is the injected current year. -/
theorem yearless_success_year (pre : List FTok) (s : List Char) (y : Nat)
    (x : Ymd) (hy1 : 1000 ≤ y) (hy2 : y ≤ 9999)
    (h : strptimeYmd (pre ++ [FTok.ty]) (s ++ ", ".data ++ pyNatDigits y) = some x) :
    x.y = y := by
  unfold strptimeYmd at h
  split at h
  · rename_i st heq
    dsimp only at h
    split at h
    · have hx := Option.some.inj h
      obtain ⟨r, v, hsuf, hp4, hyear⟩ := runToks_ty_year pre _ _ heq
      have hlen : r.length = 4 := parseY4_rest_nil_length r v hp4
      have hydlen : (pyNatDigits y).length = 4 := by
        rw [pyNatDigits_four y hy1 hy2]
        rfl
      have hydsuf : pyNatDigits y <:+ s ++ ", ".data ++ pyNatDigits y :=
        ⟨s ++ ", ".data, rfl⟩
      have hreq : r = pyNatDigits y := suffix_eq_of_length hsuf hydsuf (by omega)
      rw [hreq, parseY4_pyNatDigits y hy1 hy2] at hp4
      simp only [Option.some.injEq, Prod.mk.injEq] at hp4
      rw [← hx]
      show st.year.getD 1900 = y
      rw [hyear]
      simp [hp4.1]
    · exact absurd h (by simp)
  · exact absurd h (by simp)

/-- Claim C8: for every year-less input (one that no full-year format
accepts), a successful normalization carries the injected current
year; inputs accepted by a full-year format are independent of the
injected year; and changing the injected year changes the result
accordingly on concrete year-less dates. -/
theorem C8_yearless_uses_injected_year :
    (∀ (s : List Char) (y : Nat) (x : Ymd), 1000 ≤ y → y ≤ 9999 →
        tryFullFormats s = none → validate_core s y = some x → x.y = y) ∧
    (∀ (s : List Char) (y1 y2 : Nat), tryFullFormats s ≠ none →
        validate_core s y1 = validate_core s y2) ∧
    validate_and_format_date "03/15" 2024 = some "2024-03-15" ∧
    validate_and_format_date "03/15" 2025 = some "2025-03-15" ∧
    validate_and_format_date "March 7" 1999 = some "1999-03-07" := by
  refine ⟨?_, ?_, by decide, by decide, by decide⟩
  · intro s y x hy1 hy2 hfull hv
    unfold validate_core at hv
    rw [hfull] at hv
    simp only [Option.none_orElse] at hv
    unfold tryYearlessFormats at hv
    dsimp only at hv
    rcases (Option.orElse_eq_some _ _ _).1 hv with h | ⟨-, hv⟩
    · rw [show withYearToks fmtMDyearless =
          (fmtMDyearless ++ [FTok.lit ',', FTok.sp]) ++ [FTok.ty] from
          by simp [withYearToks]] at h
      exact yearless_success_year _ _ _ _ hy1 hy2 h
    rcases (Option.orElse_eq_some _ _ _).1 hv with h | ⟨-, hv⟩
    · rw [show withYearToks [FTok.tBfull, FTok.sp, FTok.td] =
          ([FTok.tBfull, FTok.sp, FTok.td] ++ [FTok.lit ',', FTok.sp]) ++ [FTok.ty] from
          by simp [withYearToks]] at h
      exact yearless_success_year _ _ _ _ hy1 hy2 h
    · rw [show withYearToks [FTok.tbAbbr, FTok.sp, FTok.td] =
          ([FTok.tbAbbr, FTok.sp, FTok.td] ++ [FTok.lit ',', FTok.sp]) ++ [FTok.ty] from
          by simp [withYearToks]] at hv
      exact yearless_success_year _ _ _ _ hy1 hy2 hv
  · intro s y1 y2 hfull
    obtain ⟨x, hx⟩ := Option.ne_none_iff_exists'.1 hfull
    unfold validate_core
    rw [hx]
    rfl

/-- Claim C8, witness. -/
theorem C8_yearless_uses_injected_year_witness :
    ((1000 : Nat) ≤ 2024) ∧ ((2024 : Nat) ≤ 9999) ∧
    tryFullFormats "03/15".data = none ∧
    validate_core "03/15".data 2024 = some ⟨2024, 3, 15⟩ ∧
    ((⟨2024, 3, 15⟩ : Ymd).y = 2024) ∧
    (tryFullFormats "03/15/2024".data ≠ none) ∧
    validate_core "03/15/2024".data 2024 = validate_core "03/15/2024".data 1999 :=
  ⟨by decide, by decide, by decide, by decide,
   C8_yearless_uses_injected_year.1 "03/15".data 2024 ⟨2024, 3, 15⟩
     (by decide) (by decide) (by decide) (by decide),
   by decide,
   C8_yearless_uses_injected_year.2.1 "03/15/2024".data 2024 1999 (by decide)⟩

/-! ## Claim C1 -/

set_option maxHeartbeats 1000000 in
/-- Claim C1, counterexample: each prefix pattern of
extract_deadline_title removes everything up to and including the
first occurrence of its keyword, not only a leading label, so the
example sentence loses everything through the word due (which occurs
late in the sentence) and yields Friday instead of the claimed
remainder. -/
theorem C1_counterexample :
    extract_deadline_title "Assignment: Essay on climate change due Friday" =
      "Friday" ∧
    "Friday" ≠ "Essay on climate change due Friday" := by
  refine ⟨by decide, by decide⟩

theorem findCIRest_eq_none (kw : List Char) (s : List Char)
    (h : containsSub (lowerL kw) (lowerL s) = false) :
    findCIRest kw s = none := by
  induction s with
  | nil =>
    unfold containsSub at h
    unfold findCIRest
    split at h
    · simp at h
    · rw [if_neg (by assumption)]
  | cons c t ih =>
    simp only [lowerL, List.map_cons] at h
    unfold containsSub at h
    unfold findCIRest
    simp only [lowerL, List.map_cons] at ih ⊢
    split at h
    · simp at h
    · rw [if_neg (by assumption)]
      split
      · rfl
      · exact ih h

theorem stripThroughKw_noop (kw : List Char) (s : List Char)
    (h : containsSub (lowerL kw) (lowerL s) = false) :
    stripThroughKw kw s = s := by
  unfold stripThroughKw
  rw [findCIRest_eq_none kw s h]

set_option maxHeartbeats 1000000 in
/-- Claim C1, amended: the example sentence yields Friday (everything
through the first occurrence of due is removed), and title extraction
preserves a sentence containing none of the seven keywords, up to the
final whitespace collapse, strip, truncation and empty default. -/
theorem C1_amended :
    extract_deadline_title "Assignment: Essay on climate change due Friday" =
      "Friday" ∧
    (∀ s : String,
        (titleKws.all fun kw =>
          !(containsSub (lowerL kw) (lowerL (pyStrip s.data)))) = true →
        extract_deadline_title s = finishTitle (pyStrip s.data)) := by
  constructor
  · decide
  · intro s h
    have hall := List.all_eq_true.1 h
    have : ∀ kws : List (List Char),
        (∀ kw ∈ kws, containsSub (lowerL kw) (lowerL (pyStrip s.data)) = false) →
        kws.foldl (fun acc kw => stripThroughKw kw acc) (pyStrip s.data) =
          pyStrip s.data := by
      intro kws
      induction kws with
      | nil => intro _; rfl
      | cons k ks ih =>
        intro hk
        have h1 := hk k (List.mem_cons_self k ks)
        simp only [List.foldl_cons, stripThroughKw_noop k _ h1]
        exact ih (fun kw hkw => hk kw (List.mem_cons_of_mem k hkw))
    have key := this titleKws (fun kw hkw => by simpa using hall kw hkw)
    unfold extract_deadline_title
    dsimp only
    rw [key]

/-! ## Claim C3 -/

/-- All activities of a daily plan other than the deadline entries
carry a duration; the deadline entries have no duration key. -/
theorem daily_plan_duration (date : PyDateTime) (w s : Int) (style : String)
    (ds : List Deadline) (pd : List String) :
    ∀ a ∈ generate_daily_plan date w s style ds pd,
      (a.type ≠ "deadline" → a.duration.isSome) ∧
      (a.type = "deadline" → a.duration = none) := by
  intro a ha
  have ha2 := (generate_daily_plan_perm date w s style ds pd).mem_iff.1 ha
  simp only [List.mem_append, List.mem_cons, List.not_mem_nil, or_false] at ha2
  rcases ha2 with ((((((rfl | rfl) | hst) | (rfl | rfl)) | hdl) | hrv) | hw) | rfl
  · exact ⟨fun _ => rfl,
      fun hh => absurd (show ("routine" : String) = "deadline" from hh) (by decide)⟩
  · exact ⟨fun _ => rfl,
      fun hh => absurd (show ("meal" : String) = "deadline" from hh) (by decide)⟩
  · obtain ⟨hty, hdur⟩ := study_sessions_shape w s style (pyWeekday date) a hst
    refine ⟨fun _ => hdur, fun hh => ?_⟩
    rw [hty] at hh
    exact absurd hh (by decide)
  · exact ⟨fun _ => rfl,
      fun hh => absurd (show ("meal" : String) = "deadline" from hh) (by decide)⟩
  · exact ⟨fun _ => rfl,
      fun hh => absurd (show ("meal" : String) = "deadline" from hh) (by decide)⟩
  · obtain ⟨hty, hdur⟩ := deadline_activities_shape date ds a hdl
    exact ⟨fun hne => absurd hty hne, fun _ => hdur⟩
  · obtain ⟨hty, hdur⟩ := review_activities_shape date ds a hrv
    refine ⟨fun _ => hdur, fun hh => ?_⟩
    rw [hty] at hh
    exact absurd hh (by decide)
  · split at hw
    · simp only [List.mem_cons, List.not_mem_nil, or_false] at hw
      subst hw
      exact ⟨fun _ => rfl,
        fun hh => absurd (show ("wellness" : String) = "deadline" from hh) (by decide)⟩
    · exact absurd hw (List.not_mem_nil a)
  · exact ⟨fun _ => rfl,
      fun hh => absurd (show ("free" : String) = "deadline" from hh) (by decide)⟩

/-- Claim C3, counterexample: a schedule synthesized with a deadline
dated on its first day contains an activity (the deadline entry) with
no duration field, so not every placed activity carries a duration. -/
theorem C3_counterexample :
    ∃ p ∈ create_schedule []
        {deadlines := some [{date := 0, type := some "exam", title := some "Homework 1"}]}
        ⟨0, 0⟩,
      ∃ a ∈ p.2, a.type = "deadline" ∧ a.duration = none := by
  refine ⟨((0 : Int), generate_daily_plan ⟨0, 0⟩ 8 23 "pomodoro"
      [{date := 0, type := some "exam", title := some "Homework 1"}] []), ?_, ?_⟩
  · rw [create_schedule_eq_map]
    refine List.mem_map.2 ⟨0, by simp, ?_⟩
    norm_num
  · have hperm := generate_daily_plan_perm ⟨0, 0⟩ 8 23 "pomodoro"
      [{date := 0, type := some "exam", title := some "Homework 1"}] []
    refine ⟨{ time := "23:59", activity := "📝 EXAM: Homework 1", type := "deadline", course := some "", description := some "", priority := some "high" }, hperm.mem_iff.2 (by decide), by decide⟩

/-- Claim C3, amended: every activity placed into a synthesized
schedule except the deadline entries carries an integer duration; the
deadline entries themselves are emitted without a duration key. -/
theorem C3_amended (pd : List String) (u : UserData) (start : PyDateTime) :
    ∀ p ∈ create_schedule pd u start, ∀ a ∈ p.2,
      (a.type ≠ "deadline" → a.duration.isSome) ∧
      (a.type = "deadline" → a.duration = none) := by
  intro p hp a ha
  rw [create_schedule_eq_map] at hp
  obtain ⟨i, _, rfl⟩ := List.mem_map.1 hp
  exact daily_plan_duration ⟨start.day + (i : Int), start.usec⟩
    (u.wakeup.getD 8) (u.sleep.getD 23) (u.study_style.getD "pomodoro")
    (u.deadlines.getD []) pd a ha

/-- Claim C3, witness for the amended statement. -/
theorem C3_amended_witness :
    (((0 : Int), generate_daily_plan ⟨0, 0⟩ 8 23 "pomodoro" [] []) ∈
       create_schedule [] {} ⟨0, 0⟩) ∧
    ({ time := "12:00", activity := "🥗 Lunch Break", type := "meal", duration := some 60 } : Activity) ∈
      (generate_daily_plan ⟨0, 0⟩ 8 23 "pomodoro" [] []) ∧
    (({ time := "12:00", activity := "🥗 Lunch Break", type := "meal", duration := some 60 } : Activity).duration.isSome) := by
  have hp : ((0 : Int), generate_daily_plan ⟨0, 0⟩ 8 23 "pomodoro" [] []) ∈
      create_schedule [] {} ⟨0, 0⟩ := by
    rw [create_schedule_eq_map]
    refine List.mem_map.2 ⟨0, by simp, ?_⟩
    norm_num
  have hperm := generate_daily_plan_perm ⟨0, 0⟩ 8 23 "pomodoro" [] []
  have ha : ({ time := "12:00", activity := "🥗 Lunch Break", type := "meal", duration := some 60 } : Activity) ∈
      generate_daily_plan ⟨0, 0⟩ 8 23 "pomodoro" [] [] := hperm.mem_iff.2 (by decide)
  exact ⟨hp, ha,
    (C3_amended [] {} ⟨0, 0⟩ _ hp _ ha).1 (by decide)⟩

/-! ## Claim C4 -/

/-- The timedelta day count from a current datetime within a day
(clock strictly after midnight) to midnight of a deadline day is one
less than the calendar-day difference, because the division floors. -/
theorem tdDays_clock_pos (cur : PyDateTime) (D : Int)
    (h0 : 0 < cur.usec) (h1 : cur.usec < usecPerDay) :
    tdDays ⟨D, 0⟩ cur = D - cur.day - 1 := by
  simp only [tdDays, dtValue]
  rw [Int.fdiv_eq_ediv _ (by norm_num [usecPerDay])]
  simp only [usecPerDay] at h1 ⊢
  omega

/-- At exactly midnight the timedelta day count is the calendar-day
difference. -/
theorem tdDays_clock_zero (cur : PyDateTime) (D : Int) (h : cur.usec = 0) :
    tdDays ⟨D, 0⟩ cur = D - cur.day := by
  simp only [tdDays, dtValue, h]
  rw [Int.fdiv_eq_ediv _ (by norm_num [usecPerDay])]
  simp only [usecPerDay]
  omega

/-- A deadline whose computed days_until is 1, 3 or 7 and whose type
is exam or project yields exactly one review activity with the fields
built by the source. -/
theorem review_sessions_singleton_emit (cur : PyDateTime) (d : Deadline)
    (hc : (tdDays ⟨d.date, 0⟩ cur = 1 ∨ tdDays ⟨d.date, 0⟩ cur = 3 ∨
            tdDays ⟨d.date, 0⟩ cur = 7) ∧
          (d.type = some "exam" ∨ d.type = some "project")) :
    generate_review_sessions cur [d] =
      [{ time := "20:00", activity := "📖 " ++ intensityOf (tdDays ⟨d.date, 0⟩ cur) ++ " Review: " ++ d.title.getD "", type := "review", course := some (d.course_code.getD ""), duration := some (if tdDays ⟨d.date, 0⟩ cur = 1 then 60 else 45), priority := some (if tdDays ⟨d.date, 0⟩ cur ≤ 3 then "high" else "medium") }] := by
  unfold generate_review_sessions
  rw [List.filterMap_cons]
  dsimp only
  rw [if_pos hc]
  rfl

/-- A deadline failing the review condition yields no review
activity. -/
theorem review_sessions_singleton_skip (cur : PyDateTime) (d : Deadline)
    (hc : ¬ ((tdDays ⟨d.date, 0⟩ cur = 1 ∨ tdDays ⟨d.date, 0⟩ cur = 3 ∨
            tdDays ⟨d.date, 0⟩ cur = 7) ∧
          (d.type = some "exam" ∨ d.type = some "project"))) :
    generate_review_sessions cur [d] = [] := by
  unfold generate_review_sessions
  rw [List.filterMap_cons]
  dsimp only
  rw [if_neg hc]
  rfl

/-- Claim C4, counterexample: a project deadline dated three calendar
days after the schedule day, with the schedule carrying a creation
clock of 08:00 (as datetime.today gives the scheduler any time it is
not run at exact midnight), yields no review activity on that day:
the floored datetime difference is 2, not 3, so the claimed Focused
review on today is absent. -/
theorem C4_counterexample :
    (({date := 3, type := some "project", title := some "Final Project"} : Deadline).date
        - (0 : Int) = 3) ∧
    generate_review_sessions ⟨0, 28800000000⟩
      [{date := 3, type := some "project", title := some "Final Project"}] = [] := by
  refine ⟨by decide, by decide⟩

/-- Claim C4, amended: a review is emitted iff the floored datetime
difference days_until (midnight of the deadline date minus the
current datetime) is 1, 3 or 7 and the type is exam or project, at
20:00 with intensity Intensive, Focused or Initial for 1, 3 or 7,
duration 60 when days_until is 1 and 45 otherwise, priority high when
days_until is at most 3 and medium otherwise; days_until is the
calendar difference minus one whenever the creation clock is after
midnight (and exactly the calendar difference at midnight), so a
project deadline dated today plus 3 on a schedule created after
midnight yields no review on today, an Intensive review on today plus
1, and no review on today plus 2. -/
theorem C4_amended :
    (∀ (cur : PyDateTime) (d : Deadline),
        ((tdDays ⟨d.date, 0⟩ cur = 1 ∨ tdDays ⟨d.date, 0⟩ cur = 3 ∨
            tdDays ⟨d.date, 0⟩ cur = 7) ∧
          (d.type = some "exam" ∨ d.type = some "project")) →
        generate_review_sessions cur [d] =
          [{ time := "20:00", activity := "📖 " ++ intensityOf (tdDays ⟨d.date, 0⟩ cur) ++ " Review: " ++ d.title.getD "", type := "review", course := some (d.course_code.getD ""), duration := some (if tdDays ⟨d.date, 0⟩ cur = 1 then 60 else 45), priority := some (if tdDays ⟨d.date, 0⟩ cur ≤ 3 then "high" else "medium") }]) ∧
    (∀ (cur : PyDateTime) (d : Deadline),
        ¬ ((tdDays ⟨d.date, 0⟩ cur = 1 ∨ tdDays ⟨d.date, 0⟩ cur = 3 ∨
            tdDays ⟨d.date, 0⟩ cur = 7) ∧
          (d.type = some "exam" ∨ d.type = some "project")) →
        generate_review_sessions cur [d] = []) ∧
    (∀ (cur : PyDateTime) (D : Int), 0 < cur.usec → cur.usec < usecPerDay →
        tdDays ⟨D, 0⟩ cur = D - cur.day - 1) ∧
    (∀ (cur : PyDateTime) (D : Int), cur.usec = 0 →
        tdDays ⟨D, 0⟩ cur = D - cur.day) ∧
    (∀ (cur : PyDateTime) (d : Deadline),
        0 < cur.usec → cur.usec < usecPerDay →
        d.date = cur.day + 3 → d.type = some "project" →
        generate_review_sessions cur [d] = [] ∧
        (∃ a ∈ generate_review_sessions ⟨cur.day + 1, cur.usec⟩ [d],
          a.activity = "📖 Intensive Review: " ++ d.title.getD "" ∧
          a.duration = some 60 ∧ a.priority = some "high") ∧
        generate_review_sessions ⟨cur.day + 2, cur.usec⟩ [d] = []) := by
  refine ⟨review_sessions_singleton_emit, review_sessions_singleton_skip,
    tdDays_clock_pos, tdDays_clock_zero, ?_⟩
  intro cur d h0 h1 hdate htype
  have hd0 : tdDays ⟨d.date, 0⟩ cur = 2 := by
    rw [tdDays_clock_pos cur d.date h0 h1, hdate]
    ring
  have hd1 : tdDays ⟨d.date, 0⟩ ⟨cur.day + 1, cur.usec⟩ = 1 := by
    rw [tdDays_clock_pos ⟨cur.day + 1, cur.usec⟩ d.date h0 h1, hdate]
    ring
  have hd2 : tdDays ⟨d.date, 0⟩ ⟨cur.day + 2, cur.usec⟩ = 0 := by
    rw [tdDays_clock_pos ⟨cur.day + 2, cur.usec⟩ d.date h0 h1, hdate]
    ring
  refine ⟨?_, ?_, ?_⟩
  · refine review_sessions_singleton_skip cur d ?_
    rintro ⟨hdu, -⟩
    rw [hd0] at hdu
    rcases hdu with h | h | h <;> exact absurd h (by decide)
  · rw [review_sessions_singleton_emit ⟨cur.day + 1, cur.usec⟩ d
      ⟨Or.inl hd1, Or.inr htype⟩]
    refine ⟨_, List.mem_singleton_self _, ?_, ?_, ?_⟩
    · rw [hd1]
      rfl
    · rw [hd1]
      rfl
    · rw [hd1]
      rfl
  · refine review_sessions_singleton_skip ⟨cur.day + 2, cur.usec⟩ d ?_
    rintro ⟨hdu, -⟩
    rw [hd2] at hdu
    rcases hdu with h | h | h <;> exact absurd h (by decide)

/-- Claim C4, witness for the amended statement at the counterexample
input. -/
theorem C4_amended_witness :
    ((0 : Int) < 28800000000) ∧ ((28800000000 : Int) < usecPerDay) ∧
    (({date := 3, type := some "project", title := some "Final Project"} : Deadline).date
        = (0 : Int) + 3) ∧
    (({date := 3, type := some "project", title := some "Final Project"} : Deadline).type
        = some "project") ∧
    (generate_review_sessions ⟨0, 28800000000⟩
        [{date := 3, type := some "project", title := some "Final Project"}] = [] ∧
      (∃ a ∈ generate_review_sessions ⟨(0 : Int) + 1, 28800000000⟩
          [{date := 3, type := some "project", title := some "Final Project"}],
        a.activity = "📖 Intensive Review: " ++
          (({date := 3, type := some "project", title := some "Final Project"} : Deadline).title.getD "") ∧
        a.duration = some 60 ∧ a.priority = some "high") ∧
      generate_review_sessions ⟨(0 : Int) + 2, 28800000000⟩
        [{date := 3, type := some "project", title := some "Final Project"}] = []) :=
  ⟨by decide, by norm_num [usecPerDay], by decide, by decide,
    C4_amended.2.2.2.2 ⟨0, 28800000000⟩
      {date := 3, type := some "project", title := some "Final Project"}
      (by decide) (by norm_num [usecPerDay]) (by decide) (by decide)⟩

/-! ## Claim C5 -/

/-- The per-day guarantees of a plan generated with no deadlines. -/
theorem daily_plan_empty_facts (date : PyDateTime) (w s : Int) (style : String)
    (pd : List String) :
    6 ≤ (generate_daily_plan date w s style [] pd).length ∧
    (∃ a ∈ generate_daily_plan date w s style [] pd, a.type = "routine") ∧
    (∃ a ∈ generate_daily_plan date w s style [] pd, a.activity = "🍳 Breakfast") ∧
    2 ≤ (generate_daily_plan date w s style [] pd).countP (fun a => a.type == "study") ∧
    (∃ a ∈ generate_daily_plan date w s style [] pd, a.activity = "🥗 Lunch Break") ∧
    (∃ a ∈ generate_daily_plan date w s style [] pd, a.activity = "🍽️ Dinner") ∧
    (∃ a ∈ generate_daily_plan date w s style [] pd, a.type = "free") ∧
    (pyWeekday date < 5 →
      ∃ a ∈ generate_daily_plan date w s style [] pd, a.type = "wellness") := by
  have hperm := generate_daily_plan_perm date w s style [] pd
  have hempty1 : get_deadlines_for_date date [] = [] := rfl
  have hempty2 : generate_review_sessions date [] = [] := rfl
  rw [hempty1, hempty2] at hperm
  have h2 := study_sessions_length w s style (pyWeekday date)
  refine ⟨?_, ?_, ?_, ?_, ?_, ?_, ?_, ?_⟩
  · rw [hperm.length_eq]
    simp only [List.length_append, List.length_cons, List.length_nil]
    split <;> simp only [List.length_cons, List.length_nil] <;> omega
  · refine ⟨{ time := timeHH w, activity := "🌅 Morning Routine & Wake Up", type := "routine", duration := some 60 }, hperm.mem_iff.2 (by simp), rfl⟩
  · refine ⟨{ time := timeHH (w + 1), activity := "🍳 Breakfast", type := "meal", duration := some 30 }, hperm.mem_iff.2 (by simp), rfl⟩
  · rw [hperm.countP_eq]
    simp only [List.countP_append, List.countP_nil]
    rw [study_sessions_count]
    have hz1 : List.countP (fun a => a.type == "study")
        [({ time := timeHH w, activity := "🌅 Morning Routine & Wake Up",
            type := "routine", duration := some 60 } : Activity),
         { time := timeHH (w + 1), activity := "🍳 Breakfast",
           type := "meal", duration := some 30 }] = 0 := rfl
    have hz2 : List.countP (fun a => a.type == "study")
        [({ time := "12:00", activity := "🥗 Lunch Break",
            type := "meal", duration := some 60 } : Activity),
         { time := "18:00", activity := "🍽️ Dinner",
           type := "meal", duration := some 60 }] = 0 := rfl
    have hz4 : List.countP (fun a => a.type == "study")
        [({ time := timeHH (s - 2), activity := "🎉 Free Time & Relaxation",
            type := "free", duration := some 120 } : Activity)] = 0 := rfl
    have hzW : List.countP (fun a => a.type == "study")
        [({ time := timeHH (w + 8), activity := "💪 Exercise/Wellness Time",
            type := "wellness", duration := some 45 } : Activity)] = 0 := rfl
    rw [hz1, hz2, hz4]
    split
    · rw [hzW]; omega
    · simp only [List.countP_nil]; omega
  · refine ⟨{ time := "12:00", activity := "🥗 Lunch Break", type := "meal", duration := some 60 }, hperm.mem_iff.2 (by simp), rfl⟩
  · refine ⟨{ time := "18:00", activity := "🍽️ Dinner", type := "meal", duration := some 60 }, hperm.mem_iff.2 (by simp), rfl⟩
  · refine ⟨{ time := timeHH (s - 2), activity := "🎉 Free Time & Relaxation", type := "free", duration := some 120 }, hperm.mem_iff.2 (by simp), rfl⟩
  · intro hc
    refine ⟨{ time := timeHH (w + 8), activity := "💪 Exercise/Wellness Time", type := "wellness", duration := some 45 }, hperm.mem_iff.2 (by simp [hc]), rfl⟩

/-- Claim C5: with an empty deadline list the synthesized schedule has
exactly the 120 consecutive days starting today as its keys, and every
day contains at least 6 activities including the morning routine,
breakfast, at least two study blocks, lunch, dinner and free time,
with a wellness activity on weekdays. -/
theorem C5_horizon_and_daily_contents (pd : List String) (u : UserData)
    (start : PyDateTime) (hdl : u.deadlines.getD [] = []) :
    ((create_schedule pd u start).map Prod.fst =
      (List.range 120).map (fun (i : Nat) => start.day + (i : Int))) ∧
    (create_schedule pd u start).length = 120 ∧
    ∀ p ∈ create_schedule pd u start,
      6 ≤ p.2.length ∧
      (∃ a ∈ p.2, a.type = "routine") ∧
      (∃ a ∈ p.2, a.activity = "🍳 Breakfast") ∧
      2 ≤ p.2.countP (fun a => a.type == "study") ∧
      (∃ a ∈ p.2, a.activity = "🥗 Lunch Break") ∧
      (∃ a ∈ p.2, a.activity = "🍽️ Dinner") ∧
      (∃ a ∈ p.2, a.type = "free") ∧
      (pyWeekday ⟨p.1, start.usec⟩ < 5 → ∃ a ∈ p.2, a.type = "wellness") := by
  refine ⟨?_, ?_, ?_⟩
  · rw [create_schedule_eq_map]
    simp [List.map_map, Function.comp]
  · rw [create_schedule_eq_map]
    simp
  · intro p hp
    rw [create_schedule_eq_map] at hp
    obtain ⟨i, _, rfl⟩ := List.mem_map.1 hp
    rw [hdl]
    exact daily_plan_empty_facts ⟨start.day + (i : Int), start.usec⟩
      (u.wakeup.getD 8) (u.sleep.getD 23) (u.study_style.getD "pomodoro") pd

/-- Claim C5, witness. -/
theorem C5_horizon_and_daily_contents_witness :
    (({} : UserData).deadlines.getD [] = []) ∧
    (((create_schedule [] {} ⟨0, 0⟩).map Prod.fst =
      (List.range 120).map (fun (i : Nat) => (0 : Int) + (i : Int))) ∧
    (create_schedule [] {} ⟨0, 0⟩).length = 120 ∧
    ∀ p ∈ create_schedule [] {} ⟨0, 0⟩,
      6 ≤ p.2.length ∧
      (∃ a ∈ p.2, a.type = "routine") ∧
      (∃ a ∈ p.2, a.activity = "🍳 Breakfast") ∧
      2 ≤ p.2.countP (fun a => a.type == "study") ∧
      (∃ a ∈ p.2, a.activity = "🥗 Lunch Break") ∧
      (∃ a ∈ p.2, a.activity = "🍽️ Dinner") ∧
      (∃ a ∈ p.2, a.type = "free") ∧
      (pyWeekday ⟨p.1, 0⟩ < 5 → ∃ a ∈ p.2, a.type = "wellness")) :=
  ⟨rfl, C5_horizon_and_daily_contents [] {} ⟨0, 0⟩ rfl⟩

set_option maxHeartbeats 1000000 in
/-- Claim C1, witness for the amended statement at a keyword-free
sentence. -/
theorem C1_amended_witness :
    ((titleKws.all fun kw =>
        !(containsSub (lowerL kw) (lowerL (pyStrip "Essay on topic X".data)))) = true) ∧
    extract_deadline_title "Essay on topic X" =
      finishTitle (pyStrip "Essay on topic X".data) :=
  ⟨by decide, C1_amended.2 "Essay on topic X" (by decide)⟩

end TM
